import Mathlib

/-!
Shallow embedding of the sticker-dream client (src/client.ts).

The file models the pieces of the program that the specification claims
talk about: the full-page canvas renderer (imageToCanvasBlob), the
Avery 22877 sticker-sheet renderer (createStickerSheetCanvas), the print
dispatch chain (printFullPageReliable, printStickerSheetReliable,
printViaIframe, printViaOverlay), the voice-turn cancel vocabulary and the
typed-text path (setupRecorder onstop, handleTextGenerate), the
current-image handle lifecycle (generateImage, newStickerBtn), the
template-cell fill state (toggleCell, fillAllBtn), and the recording
timer (recordBtn pointer handlers). Geometry uses exact rationals in
place of JS double arithmetic.
-/

namespace StickerDream

/-- Pixel dimensions of a decoded source image, as read from the
HTMLImageElement width and height fields. -/
structure ImageDims where
  width : ℚ
  height : ℚ
  deriving Repr, DecidableEq

/-- An axis-aligned rectangle in canvas pixel coordinates. -/
structure Rect where
  x : ℚ
  y : ℚ
  w : ℚ
  h : ℚ
  deriving Repr, DecidableEq

/-- The fit parameter of imageToCanvasBlob in client.ts. -/
inductive Fit
  | contain
  | cover
  deriving Repr, DecidableEq

/-- Destination rectangle computed by imageToCanvasBlob in client.ts.
The code initialises drawWidth, drawHeight to the full canvas and the
offsets to zero, then adjusts them only inside the contain branch. -/
def imageToCanvasRect (img : ImageDims) (width height : ℚ) (fit : Fit) : Rect :=
  let rImg := img.width / img.height
  let rCanvas := width / height
  if fit = Fit.contain then
    if rImg > rCanvas then
      { x := 0, y := (height - width / rImg) / 2, w := width, h := width / rImg }
    else
      { x := (width - height * rImg) / 2, y := 0, w := height * rImg, h := height }
  else
    { x := 0, y := 0, w := width, h := height }

/-- Colors we can observe on the rendered canvas: the white background
fill, or a pixel belonging to the drawn source image. -/
inductive Color
  | white
  | imagePixel
  deriving Repr, DecidableEq

/-- Membership of a point in a rectangle, as a boolean test. -/
def inRectB (r : Rect) (px py : ℚ) : Bool :=
  decide (r.x ≤ px) && decide (px < r.x + r.w) &&
  decide (r.y ≤ py) && decide (py < r.y + r.h)

/-- The canvas produced by imageToCanvasBlob: fixed width and height,
and the rectangle the source image was drawn into. The code fills the
whole canvas white before drawing, so every point outside the draw
rectangle keeps the background color. -/
structure Canvas where
  width : ℚ
  height : ℚ
  drawRect : Rect
  deriving Repr, DecidableEq

/-- Observable color of the rendered canvas at a point: the image where
it was drawn, the white background fill everywhere else. -/
def Canvas.colorAt (c : Canvas) (px py : ℚ) : Color :=
  if inRectB c.drawRect px py then Color.imagePixel else Color.white

/-- imageToCanvasBlob from client.ts, as the canvas it rasterises:
a width by height canvas filled white, with the source image drawn into
the fit rectangle. -/
def imageToCanvasBlob (img : ImageDims) (width height : ℚ) (fit : Fit) : Canvas :=
  { width := width, height := height, drawRect := imageToCanvasRect img width height fit }

/-- printFullPageReliable renders the source image through
imageToCanvasBlob at 1275 by 1650 pixels with contain fit. -/
def printFullPageCanvas (img : ImageDims) : Canvas :=
  imageToCanvasBlob img 1275 1650 Fit.contain

/-- Aspect ratio of the source image is preserved by a draw rectangle
when the cross products of the side lengths agree. -/
def aspectPreserved (img : ImageDims) (r : Rect) : Prop :=
  r.w * img.height = r.h * img.width

/-- A rectangle lies fully inside a width by height canvas. -/
def rectInside (r : Rect) (width height : ℚ) : Prop :=
  0 ≤ r.x ∧ 0 ≤ r.y ∧ r.x + r.w ≤ width ∧ r.y + r.h ≤ height

/-- A rectangle is centered in a width by height canvas. -/
def rectCentered (r : Rect) (width height : ℚ) : Prop :=
  r.x = (width - r.w) / 2 ∧ r.y = (height - r.h) / 2

/-! Sticker sheet renderer: createStickerSheetCanvas in client.ts. -/

/-- Dots per inch used by both print renderers. -/
def DPI : ℚ := 150

/-- Avery 22877 top margin in pixels. -/
def topMargin : ℚ := 0.618 * DPI

/-- Avery 22877 left margin in pixels. -/
def leftMargin : ℚ := 0.618 * DPI

/-- Avery 22877 horizontal pitch in pixels. -/
def hPitch : ℚ := 2.63 * DPI

/-- Avery 22877 vertical pitch in pixels. -/
def vPitch : ℚ := 2.59 * DPI

/-- Label diameter, two inches, in pixels. -/
def labelSize : ℚ := 2 * DPI

/-- Left edge of the cell at a linear index: the code computes
col as cellIndex mod 3 and x as leftMargin plus col times hPitch. -/
def cellX (i : ℕ) : ℚ := leftMargin + (i % 3 : ℕ) * hPitch

/-- Top edge of the cell at a linear index: the code computes row as
the floor of cellIndex over 3 and y as topMargin plus row times vPitch. -/
def cellY (i : ℕ) : ℚ := topMargin + (i / 3 : ℕ) * vPitch

/-- One draw operation of the sticker-sheet loop: the circular clip
set up by ctx.arc, and the destination rectangle of ctx.drawImage.
The drawImage call scales the source image to the destination rectangle
irrespective of the source dimensions. -/
structure CellDraw where
  cellIndex : ℕ
  clipCenterX : ℚ
  clipCenterY : ℚ
  clipRadius : ℚ
  destRect : Rect
  deriving Repr, DecidableEq

/-- The draw operation the loop body of createStickerSheetCanvas emits
for one filled cell index. -/
def drawCell (i : ℕ) : CellDraw :=
  { cellIndex := i
    clipCenterX := cellX i + labelSize / 2
    clipCenterY := cellY i + labelSize / 2
    clipRadius := labelSize / 2
    destRect := { x := cellX i, y := cellY i, w := labelSize, h := labelSize } }

/-- The sticker sheet canvas: page dimensions, white background, and the
list of cell draws, one per element of filledCells, in order. -/
structure SheetCanvas where
  width : ℚ
  height : ℚ
  draws : List CellDraw
  deriving Repr, DecidableEq

/-- createStickerSheetCanvas from client.ts: a letter page at 150 DPI,
filled white, with one clipped draw per filled cell index. -/
def createStickerSheetCanvas (filledCells : List ℕ) : SheetCanvas :=
  { width := 8.5 * DPI
    height := 11 * DPI
    draws := filledCells.map drawCell }

/-- Modelled from the spec: the cover-fit rectangle the specification
describes for a label — the source image scaled, aspect ratio preserved,
to the smallest size filling the bounding square of the circle, centered,
with the overflow cropped by the clip. Written from the spec words for
comparison with the destination rectangle the code actually uses. -/
def coverFitRect (img : ImageDims) (x y size : ℚ) : Rect :=
  let r := img.width / img.height
  if r > 1 then
    { x := x + (size - size * r) / 2, y := y, w := size * r, h := size }
  else
    { x := x, y := y + (size - size / r) / 2, w := size, h := size / r }

/-! Print dispatch: printFullPageReliable, printStickerSheetReliable,
printViaIframe and printViaOverlay in client.ts. -/

/-- Outcome of a print entry point: either the rendered blob was handed
to the print dispatcher, or the operation aborted with an alert message
and no print action was taken. -/
inductive PrintOutcome
  | printed (blobUrl : ℕ)
  | alerted (msg : String)
  deriving Repr, DecidableEq

/-- printStickerSheetReliable from client.ts. The rasterisation outcome
of createStickerSheetCanvas / canvas.toBlob (which can fail with an image
decode error or a toBlob failure) is passed in as an Except value; the
zero-filled-cells check runs before rasterisation is even attempted. -/
def printStickerSheetReliable (raster : Except String ℕ) (filledCells : List ℕ) :
    PrintOutcome :=
  if filledCells.length = 0 then
    PrintOutcome.alerted "Please fill at least one cell before printing."
  else
    match raster with
    | Except.ok b => PrintOutcome.printed b
    | Except.error _ => PrintOutcome.alerted "Failed to prepare print. Please try again."

/-- printFullPageReliable from client.ts: rasterise, then dispatch; any
thrown rasterisation error is caught and surfaced as an alert. -/
def printFullPageReliable (raster : Except String ℕ) : PrintOutcome :=
  match raster with
  | Except.ok b => PrintOutcome.printed b
  | Except.error _ => PrintOutcome.alerted "Failed to prepare print. Please try again."

/-- Environment facts that decide which way printViaIframe goes: whether
the iframe document is accessible, whether the embedded image load event
fires (rather than the error event), and whether the print invocation on
the iframe window throws. -/
structure IframeEnv where
  docAccessible : Bool
  imgLoads : Bool
  printThrows : Bool
  deriving Repr, DecidableEq

/-- The two terminal behaviours of the print dispatcher. -/
inductive DispatchResult
  | printedViaIframe
  | overlayShown
  deriving Repr, DecidableEq

/-- printViaIframe from client.ts: missing iframe document falls back to
the overlay; an embedded image error event falls back to the overlay; an
exception from the iframe print call falls back to the overlay; otherwise
the iframe window print call runs. -/
def printViaIframe (env : IframeEnv) : DispatchResult :=
  if !env.docAccessible then DispatchResult.overlayShown
  else if !env.imgLoads then DispatchResult.overlayShown
  else if env.printThrows then DispatchResult.overlayShown
  else DispatchResult.printedViaIframe

/-- Events the print overlay installed by printViaOverlay reacts to. -/
inductive OverlayEvent
  | clickPrintNow
  | clickCancel
  | afterprint
  deriving Repr, DecidableEq

/-- Actions the overlay event handlers take. -/
inductive OverlayAction
  | callWindowPrint
  | removeOverlay
  deriving Repr, DecidableEq

/-- Event handlers wired up by printViaOverlay in client.ts: the Print Now
button click calls window.print, the Cancel click removes the overlay, and
the afterprint event cleans the overlay up. Nothing in printViaOverlay
calls window.print outside the Print Now click handler. -/
def overlayHandler : OverlayEvent → OverlayAction
  | OverlayEvent.clickPrintNow => OverlayAction.callWindowPrint
  | OverlayEvent.clickCancel => OverlayAction.removeOverlay
  | OverlayEvent.afterprint => OverlayAction.removeOverlay

/-! Voice turn handling: the onstop handler installed by setupRecorder,
and the typed-text path handleTextGenerate. -/

/-- Prefix test on character lists, written out to mirror the JS string
includes search. -/
def charsPrefix : List Char → List Char → Bool
  | [], _ => true
  | _ :: _, [] => false
  | a :: as, b :: bs => a = b && charsPrefix as bs

/-- Substring occurrence test on character lists. -/
def charsInfix (sub : List Char) : List Char → Bool
  | [] => charsPrefix sub []
  | b :: bs => charsPrefix sub (b :: bs) || charsInfix sub bs

/-- JS String.prototype.includes: sub occurs contiguously in s. -/
def jsIncludes (s sub : String) : Bool :=
  charsInfix sub.data s.data

/-- JS String.prototype.toUpperCase restricted to the ASCII range, as the
character-wise upper-casing of the string. -/
def jsToUpper (s : String) : String :=
  String.mk (s.data.map Char.toUpper)

/-- JS String.prototype.trim: strip whitespace from both ends. -/
def jsTrim (s : String) : String :=
  String.mk (((s.data.dropWhile Char.isWhitespace).reverse.dropWhile
    Char.isWhitespace).reverse)

/-- The abortWords list from the onstop handler in setupRecorder. -/
def abortWords : List String :=
  ["BLANK", "NO IMAGE", "NO STICKER", "CANCEL", "ABORT", "START OVER"]

/-- Outcome of one input turn: either no generation happens, or
generateImage is invoked with the given prompt. -/
inductive TurnOutcome
  | noGeneration
  | generate (prompt : String)
  deriving Repr, DecidableEq

/-- Result of the onstop handler for one voice turn: the turn outcome,
the transcript text shown, and the record button label after the turn
settles back (the handler restores it to the idle label in both paths). -/
structure VoiceTurnResult where
  outcome : TurnOutcome
  transcript : String
  recordBtnLabel : String
  deriving Repr, DecidableEq

/-- The decision and UI effects of the onstop handler in setupRecorder:
a falsy (empty) transcription, or any abort word occurring in the
uppercased transcription, cancels the turn; otherwise generateImage runs
with the transcribed text. -/
def voiceTurn (text : String) : VoiceTurnResult :=
  if text = "" || abortWords.any (fun word => jsIncludes (jsToUpper text) word) then
    { outcome := TurnOutcome.noGeneration
      transcript := "No image generated."
      recordBtnLabel := "Sticker Dream" }
  else
    { outcome := TurnOutcome.generate text
      transcript := text
      recordBtnLabel := "Sticker Dream" }

/-- handleTextGenerate from client.ts: trim the input; an empty result
refocuses the field and generates nothing; otherwise generateImage is
invoked with the trimmed text — no cancel vocabulary check occurs on
this path. -/
def handleTextGenerate (raw : String) : TurnOutcome :=
  let text := jsTrim raw
  if text = "" then TurnOutcome.noGeneration
  else TurnOutcome.generate text

/-! Current-image handle lifecycle: generateImage and the newStickerBtn
click handler in client.ts. -/

/-- State of the current-image reference together with a log of every
revocation of a generated-image handle the code performs. -/
structure ImgState where
  currentImageUrl : Option ℕ
  revokes : List ℕ
  deriving Repr, DecidableEq

/-- Initial state: no current image, nothing revoked. -/
def imgInit : ImgState :=
  { currentImageUrl := none, revokes := [] }

/-- Events that change the current-image reference. -/
inductive ImgEvent
  | genSuccess (handle : ℕ)
  | newSticker
  deriving Repr, DecidableEq

/-- The current-image transitions in client.ts: a successful generation
assigns the new handle to currentImageUrl, and the newStickerBtn handler
sets currentImageUrl to null. Neither path calls URL.revokeObjectURL on
the previous currentImageUrl; the only revocations in the source target
the temporary print blob URLs inside printViaIframe and printViaOverlay. -/
def imgStep (s : ImgState) : ImgEvent → ImgState
  | ImgEvent.genSuccess handle => { s with currentImageUrl := some handle }
  | ImgEvent.newSticker => { s with currentImageUrl := none }

/-- Run a sequence of current-image events. -/
def imgRun (s : ImgState) : List ImgEvent → ImgState
  | [] => s
  | e :: es => imgRun (imgStep s e) es

/-- Number of times a particular handle has been revoked. -/
def revokeCount (s : ImgState) (handle : ℕ) : ℕ :=
  s.revokes.count handle

/-! Template cell fill state: toggleCell, the fillAllBtn and clearAllBtn
click handlers in client.ts. -/

/-- The label-sheet UI state: the current-image reference and the twelve
filled flags of the template cells. -/
structure SheetState where
  currentImageUrl : Option ℕ
  filled : List Bool
  deriving Repr, DecidableEq

/-- toggleCell from client.ts: returns unchanged when no current image
exists; otherwise flips the filled flag of the clicked cell. -/
def toggleCell (s : SheetState) (i : ℕ) : SheetState :=
  if s.currentImageUrl.isNone then s
  else { s with filled := s.filled.set i (!(s.filled.getD i false)) }

/-- The fillAllBtn click handler: returns unchanged when no current image
exists; otherwise sets every filled flag. -/
def fillAll (s : SheetState) : SheetState :=
  if s.currentImageUrl.isNone then s
  else { s with filled := s.filled.map (fun _ => true) }

/-- The clearAllBtn click handler: clears every filled flag, with no
current-image guard in the source. -/
def clearAll (s : SheetState) : SheetState :=
  { s with filled := s.filled.map (fun _ => false) }

/-! Recording timer: the recordBtn pointerdown, pointerup and
pointerleave handlers in client.ts. -/

/-- Recorder state: whether the media recorder is recording, the time the
current recording started, and the absolute deadline of the armed
recording timeout, when one is pending. -/
structure RecState where
  recording : Bool
  startedAt : ℕ
  timerDeadline : Option ℕ
  deriving Repr, DecidableEq

/-- Initial recorder state. -/
def recInit : RecState :=
  { recording := false, startedAt := 0, timerDeadline := none }

/-- Events of the recording subsystem: the pointer handlers and the
recording timeout callback firing. -/
inductive RecEvent
  | pointerdown
  | pointerup
  | pointerleave
  | timerFire
  deriving Repr, DecidableEq

/-- The recording transitions in client.ts. pointerdown starts the
recorder and arms a 15000 millisecond timeout whose callback stops a
still-recording recorder; pointerup and pointerleave clear the timeout
and stop the recorder; the timeout callback stops the recorder. -/
def recStep (now : ℕ) (s : RecState) : RecEvent → RecState
  | RecEvent.pointerdown =>
      { recording := true, startedAt := now, timerDeadline := some (now + 15000) }
  | RecEvent.pointerup => { s with recording := false, timerDeadline := none }
  | RecEvent.pointerleave => { s with recording := false, timerDeadline := none }
  | RecEvent.timerFire => { s with recording := false, timerDeadline := none }

/-- Run a timed event sequence from a state. -/
def recRun (s : RecState) : List (ℕ × RecEvent) → RecState
  | [] => s
  | (t, e) :: rest => recRun (recStep t s e) rest

/-- Validity of a timed event sequence starting at a given time in a
given state: times never decrease, no event occurs later than a pending
timeout deadline (the browser fires an armed, uncleared timeout at its
deadline), and a timerFire event occurs exactly at the pending deadline. -/
def recValid (now : ℕ) (s : RecState) : List (ℕ × RecEvent) → Bool
  | [] => true
  | (t, e) :: rest =>
      decide (now ≤ t) &&
      (match s.timerDeadline with
       | some d => decide (t ≤ d)
       | none => true) &&
      (match e with
       | RecEvent.timerFire => s.timerDeadline = some t
       | _ => true) &&
      recValid t (recStep t s e) rest

/-! Theorems checking the specification claims. -/

/-- Claim C4: if canvas rasterisation fails, or sticker-sheet mode is invoked
with zero filled cells, the print operation aborts with a user-visible
message, performs no print action and produces no artifact. -/
theorem printAbortsOnFailure (raster : Except String ℕ) (filledCells : List ℕ)
    (e : String) (h : filledCells = [] ∨ raster = Except.error e) :
    (∃ msg, printStickerSheetReliable raster filledCells = PrintOutcome.alerted msg) ∧
    (∀ b, printStickerSheetReliable raster filledCells ≠ PrintOutcome.printed b) ∧
    (∃ msg, printFullPageReliable (Except.error e) = PrintOutcome.alerted msg) ∧
    (∀ b, printFullPageReliable (Except.error e) ≠ PrintOutcome.printed b) := by
  rcases h with h | h
  · subst h
    simp [printStickerSheetReliable, printFullPageReliable]
  · subst h
    by_cases hf : filledCells.length = 0 <;>
      simp [printStickerSheetReliable, printFullPageReliable, hf]

/-- Claim C4 witness: the concrete toBlob failure with an empty filled set. -/
theorem printAbortsOnFailure_witness :
    ((List.nil : List ℕ) = [] ∨
      (Except.error "Canvas toBlob failed" : Except String ℕ) =
        Except.error "Canvas toBlob failed") ∧
    ((∃ msg, printStickerSheetReliable (Except.error "Canvas toBlob failed") [] =
        PrintOutcome.alerted msg) ∧
     (∀ b, printStickerSheetReliable (Except.error "Canvas toBlob failed") [] ≠
        PrintOutcome.printed b) ∧
     (∃ msg, printFullPageReliable (Except.error "Canvas toBlob failed") =
        PrintOutcome.alerted msg) ∧
     (∀ b, printFullPageReliable (Except.error "Canvas toBlob failed") ≠
        PrintOutcome.printed b)) :=
  ⟨Or.inl rfl,
   printAbortsOnFailure (Except.error "Canvas toBlob failed") [] "Canvas toBlob failed"
     (Or.inl rfl)⟩

/-- Claim C5: any transcription in which one of the six abort words occurs
after upper-casing produces no generation call, shows the cancel
transcript, and leaves the record button back at its idle label. -/
theorem cancelKeywordSkipsGeneration (text word : String)
    (hw : word ∈ abortWords) (hocc : jsIncludes (jsToUpper text) word = true) :
    (voiceTurn text).outcome = TurnOutcome.noGeneration ∧
    (voiceTurn text).transcript = "No image generated." ∧
    (voiceTurn text).recordBtnLabel = "Sticker Dream" := by
  have hany : abortWords.any (fun w => jsIncludes (jsToUpper text) w) = true :=
    List.any_eq_true.mpr ⟨word, hw, hocc⟩
  simp [voiceTurn, hany]

/-- Claim C5 witness: a concrete transcription containing the cancel keyword in
mixed case is cancelled. -/
theorem cancelKeywordSkipsGeneration_witness :
    "CANCEL" ∈ abortWords ∧
    jsIncludes (jsToUpper "Please Cancel that") "CANCEL" = true ∧
    ((voiceTurn "Please Cancel that").outcome = TurnOutcome.noGeneration ∧
     (voiceTurn "Please Cancel that").transcript = "No image generated." ∧
     (voiceTurn "Please Cancel that").recordBtnLabel = "Sticker Dream") :=
  ⟨by decide, by decide,
   cancelKeywordSkipsGeneration "Please Cancel that" "CANCEL" (by decide) (by decide)⟩

/-- Claim C6: every hidden-frame failure mode (inaccessible iframe document,
embedded image load error, exception from the iframe print invocation)
falls back to the overlay, and the overlay calls window.print only on the
explicit Print Now click, never on any other event. -/
theorem iframeFailureFallsBackToOverlay :
    (∀ env : IframeEnv,
      env.docAccessible = false ∨ env.imgLoads = false ∨ env.printThrows = true →
      printViaIframe env = DispatchResult.overlayShown) ∧
    (∀ e : OverlayEvent,
      overlayHandler e = OverlayAction.callWindowPrint ↔ e = OverlayEvent.clickPrintNow) := by
  constructor
  · intro env h
    rcases env with ⟨d, l, p⟩
    cases d <;> cases l <;> cases p <;> simp_all [printViaIframe]
  · intro e
    cases e <;> simp [overlayHandler]

/-- Claim C6 witness: a concrete inaccessible-document environment falls back
to the overlay, and the Print Now click is the printing event. -/
theorem iframeFailureFallsBackToOverlay_witness :
    printViaIframe ⟨false, true, false⟩ = DispatchResult.overlayShown ∧
    (overlayHandler OverlayEvent.clickPrintNow = OverlayAction.callWindowPrint ↔
      OverlayEvent.clickPrintNow = OverlayEvent.clickPrintNow) :=
  ⟨iframeFailureFallsBackToOverlay.1 ⟨false, true, false⟩ (Or.inl rfl),
   iframeFailureFallsBackToOverlay.2 OverlayEvent.clickPrintNow⟩

/-- Claim C7 counterexample: after a second successful generation supersedes
the first, the first handle has been revoked zero times, not exactly
once — the code never revokes the superseded currentImageUrl. -/
theorem supersededHandleNotRevokedCounterexample :
    (imgRun imgInit [ImgEvent.genSuccess 0, ImgEvent.genSuccess 1]).currentImageUrl =
      some 1 ∧
    revokeCount (imgRun imgInit [ImgEvent.genSuccess 0, ImgEvent.genSuccess 1]) 0 = 0 ∧
    ¬ revokeCount (imgRun imgInit [ImgEvent.genSuccess 0, ImgEvent.genSuccess 1]) 0 = 1 := by
  decide

/-- Helper: no current-image event appends to the revocation log. -/
theorem imgRun_revokes (s : ImgState) (es : List ImgEvent) :
    (imgRun s es).revokes = s.revokes := by
  induction es generalizing s with
  | nil => rfl
  | cons e es ih => cases e <;> simp [imgRun, imgStep, ih]

/-- Claim C7 amended: each successful generation makes exactly its new handle
current and starting a new sticker nulls the reference, but the
previously current handle is never revoked by either path — the object
URL simply leaks until page unload. -/
theorem currentHandleReplacedNeverRevoked (s : ImgState) (h : ℕ)
    (es : List ImgEvent) :
    (imgStep s (ImgEvent.genSuccess h)).currentImageUrl = some h ∧
    (imgStep s ImgEvent.newSticker).currentImageUrl = none ∧
    (∀ e, (imgStep s e).revokes = s.revokes) ∧
    (imgRun imgInit es).revokes = [] := by
  refine ⟨rfl, rfl, ?_, ?_⟩
  · intro e
    cases e <;> rfl
  · exact imgRun_revokes imgInit es

/-- Claim C8: with no current generated image, a cell click and the fill-all
action leave the whole sheet state, in particular every filled flag,
unchanged; so a cell can become filled only when a current image exists. -/
theorem cellFillRequiresCurrentImage (s : SheetState) (i : ℕ)
    (h : s.currentImageUrl = none) :
    toggleCell s i = s ∧ fillAll s = s ∧
    (∀ j, (toggleCell s i).filled.getD j false = s.filled.getD j false) ∧
    (∀ j, (fillAll s).filled.getD j false = s.filled.getD j false) := by
  have hn : s.currentImageUrl.isNone = true := by simp [h]
  simp [toggleCell, fillAll, hn]

/-- Claim C8 witness: the empty sheet with no current image is untouched by a
cell click and by fill-all. -/
theorem cellFillRequiresCurrentImage_witness :
    (({ currentImageUrl := none, filled := List.replicate 12 false } :
        SheetState).currentImageUrl = none) ∧
    (toggleCell { currentImageUrl := none, filled := List.replicate 12 false } 3 =
        { currentImageUrl := none, filled := List.replicate 12 false } ∧
     fillAll { currentImageUrl := none, filled := List.replicate 12 false } =
        { currentImageUrl := none, filled := List.replicate 12 false } ∧
     (∀ j, (toggleCell { currentImageUrl := none, filled := List.replicate 12 false }
        3).filled.getD j false =
        ({ currentImageUrl := none, filled := List.replicate 12 false } :
          SheetState).filled.getD j false) ∧
     (∀ j, (fillAll { currentImageUrl := none, filled := List.replicate 12 false
        }).filled.getD j false =
        ({ currentImageUrl := none, filled := List.replicate 12 false } :
          SheetState).filled.getD j false)) :=
  ⟨rfl, cellFillRequiresCurrentImage
    { currentImageUrl := none, filled := List.replicate 12 false } 3 rfl⟩

/-- Claim C10: every typed input that is non-empty after trimming invokes
generation with the trimmed text — the typed path applies no cancel
vocabulary — while an empty transcription on the voice path generates
nothing. -/
theorem typedTextSkipsCancelVocabulary (raw : String) (h : jsTrim raw ≠ "") :
    handleTextGenerate raw = TurnOutcome.generate (jsTrim raw) ∧
    (voiceTurn "").outcome = TurnOutcome.noGeneration := by
  constructor
  · simp [handleTextGenerate, h]
  · simp [voiceTurn]

/-- Claim C10 witness: a typed prompt containing the cancel keyword still
generates, and the empty transcription cancels. -/
theorem typedTextSkipsCancelVocabulary_witness :
    jsTrim " please cancel it " ≠ "" ∧
    jsIncludes (jsToUpper " please cancel it ") "CANCEL" = true ∧
    (handleTextGenerate " please cancel it " =
        TurnOutcome.generate (jsTrim " please cancel it ") ∧
     (voiceTurn "").outcome = TurnOutcome.noGeneration) :=
  ⟨by decide, by decide, typedTextSkipsCancelVocabulary " please cancel it " (by decide)⟩

/-- Claim C1: the sticker sheet is a 1275 by 1650 page; a draw for cell index
i occurs exactly when i is in the filled set; and every draw for an index
i lands at column i mod 3 and row i div 3 of the Avery 22877 grid: left
and top margins of 0.618 inches, horizontal pitch 2.63 inches, vertical
pitch 2.59 inches, a 2 inch label, all at 150 dots per inch. -/
theorem stickerSheetLayout (filledCells : List ℕ) (i : ℕ) (hi : i < 12) :
    (createStickerSheetCanvas filledCells).width = 1275 ∧
    (createStickerSheetCanvas filledCells).height = 1650 ∧
    ((∃ d ∈ (createStickerSheetCanvas filledCells).draws, d.cellIndex = i) ↔
      i ∈ filledCells) ∧
    (∀ d ∈ (createStickerSheetCanvas filledCells).draws, d.cellIndex = i →
      d.destRect.x = 0.618 * 150 + (i % 3 : ℕ) * (2.63 * 150) ∧
      d.destRect.y = 0.618 * 150 + (i / 3 : ℕ) * (2.59 * 150) ∧
      d.destRect.w = 2 * 150 ∧
      d.destRect.h = 2 * 150) := by
  refine ⟨by norm_num [createStickerSheetCanvas, DPI],
          by norm_num [createStickerSheetCanvas, DPI], ?_, ?_⟩
  · simp [createStickerSheetCanvas, drawCell]
  · intro d hd hidx
    simp only [createStickerSheetCanvas, List.mem_map] at hd
    obtain ⟨j, _, rfl⟩ := hd
    simp only [drawCell] at hidx ⊢
    subst hidx
    norm_num [cellX, cellY, leftMargin, topMargin, hPitch, vPitch, labelSize, DPI]

/-- Claim C1 witness: the sheet for filled cells 0, 5 and 11, checked at
index 5 (row 1, column 2). -/
theorem stickerSheetLayout_witness :
    (5 : ℕ) < 12 ∧
    ((createStickerSheetCanvas [0, 5, 11]).width = 1275 ∧
     (createStickerSheetCanvas [0, 5, 11]).height = 1650 ∧
     ((∃ d ∈ (createStickerSheetCanvas [0, 5, 11]).draws, d.cellIndex = 5) ↔
       5 ∈ [0, 5, 11]) ∧
     (∀ d ∈ (createStickerSheetCanvas [0, 5, 11]).draws, d.cellIndex = 5 →
       d.destRect.x = 0.618 * 150 + ((5 : ℕ) % 3 : ℕ) * (2.63 * 150) ∧
       d.destRect.y = 0.618 * 150 + ((5 : ℕ) / 3 : ℕ) * (2.59 * 150) ∧
       d.destRect.w = 2 * 150 ∧
       d.destRect.h = 2 * 150)) :=
  ⟨by norm_num, stickerSheetLayout [0, 5, 11] 5 (by norm_num)⟩

/-- Claim C3 counterexample: for a 200 by 100 source image the sticker cell
draw is not cover-fit — the destination rectangle the code passes to
drawImage does not preserve the source aspect ratio and differs from the
cover-fit rectangle of cell 0. -/
theorem stickerCellNotCoverFit :
    ¬ aspectPreserved ⟨200, 100⟩ (drawCell 0).destRect ∧
    (drawCell 0).destRect ≠ coverFitRect ⟨200, 100⟩ (cellX 0) (cellY 0) labelSize := by
  constructor
  · norm_num [aspectPreserved, drawCell, labelSize, DPI]
  · intro h
    have hw := congrArg Rect.w h
    norm_num [drawCell, coverFitRect, labelSize, DPI] at hw

/-- Claim C3 amended: each filled label is rendered through a circular clip of
radius one inch centered on the cell, and the source image is stretched
to the 300 by 300 bounding square of the label regardless of its own aspect
ratio; this coincides with cover-fit exactly for square source images. -/
theorem stickerCellCircleClipStretch (img : ImageDims) (i : ℕ)
    (hsq : img.width = img.height) (hpos : 0 < img.width) :
    (drawCell i).clipCenterX = cellX i + 150 ∧
    (drawCell i).clipCenterY = cellY i + 150 ∧
    (drawCell i).clipRadius = 150 ∧
    (drawCell i).destRect = { x := cellX i, y := cellY i, w := 300, h := 300 } ∧
    (drawCell i).destRect = coverFitRect img (cellX i) (cellY i) labelSize := by
  have hr : img.width / img.height = 1 := by
    rw [hsq]
    exact div_self (by linarith [hsq ▸ hpos])
  refine ⟨by norm_num [drawCell, labelSize, DPI],
          by norm_num [drawCell, labelSize, DPI],
          by norm_num [drawCell, labelSize, DPI],
          by norm_num [drawCell, labelSize, DPI], ?_⟩
  simp only [coverFitRect, hr]
  norm_num [drawCell, labelSize, DPI]

/-- Claim C3 amended witness: a square 256 by 256 source image at cell 7. -/
theorem stickerCellCircleClipStretch_witness :
    (ImageDims.mk 256 256).width = (ImageDims.mk 256 256).height ∧
    (0 : ℚ) < (ImageDims.mk 256 256).width ∧
    ((drawCell 7).clipCenterX = cellX 7 + 150 ∧
     (drawCell 7).clipCenterY = cellY 7 + 150 ∧
     (drawCell 7).clipRadius = 150 ∧
     (drawCell 7).destRect = { x := cellX 7, y := cellY 7, w := 300, h := 300 } ∧
     (drawCell 7).destRect = coverFitRect ⟨256, 256⟩ (cellX 7) (cellY 7) labelSize) :=
  ⟨rfl, by norm_num,
   stickerCellCircleClipStretch ⟨256, 256⟩ 7 rfl (by norm_num)⟩

/-- Claim C2: whatever the source image dimensions, the full-page canvas is
exactly 1275 by 1650 pixels, the image is drawn with its aspect ratio
preserved, fully inside the page (never cropped), centered, and every
point outside the drawn rectangle is white. -/
theorem fullPageRenderGeometry (img : ImageDims)
    (hw : 0 < img.width) (hh : 0 < img.height) :
    (printFullPageCanvas img).width = 1275 ∧
    (printFullPageCanvas img).height = 1650 ∧
    aspectPreserved img (printFullPageCanvas img).drawRect ∧
    rectInside (printFullPageCanvas img).drawRect 1275 1650 ∧
    rectCentered (printFullPageCanvas img).drawRect 1275 1650 ∧
    (∀ px py, inRectB (printFullPageCanvas img).drawRect px py = false →
      (printFullPageCanvas img).colorAt px py = Color.white) := by
  obtain ⟨iw, ih⟩ := img
  simp only at hw hh
  have hr0 : 0 < iw / ih := div_pos hw hh
  have hne : iw ≠ 0 := ne_of_gt hw
  have hne2 : ih ≠ 0 := ne_of_gt hh
  have hcolor : ∀ px py,
      inRectB (printFullPageCanvas ⟨iw, ih⟩).drawRect px py = false →
      (printFullPageCanvas ⟨iw, ih⟩).colorAt px py = Color.white := by
    intro px py hout
    simp [Canvas.colorAt, hout]
  by_cases hcmp : iw / ih > 1275 / 1650
  · have hrect : (printFullPageCanvas ⟨iw, ih⟩).drawRect =
        { x := 0, y := (1650 - 1275 / (iw / ih)) / 2, w := 1275,
          h := 1275 / (iw / ih) } := by
      simp [printFullPageCanvas, imageToCanvasBlob, imageToCanvasRect, hcmp]
    have hb : (1275 : ℚ) < 1650 * (iw / ih) := by
      have := (div_lt_iff₀ (by norm_num : (0:ℚ) < 1650)).mp hcmp
      linarith
    have hle : 1275 / (iw / ih) ≤ 1650 := by
      rw [div_le_iff₀ hr0]
      linarith
    have hpos : 0 < 1275 / (iw / ih) := div_pos (by norm_num) hr0
    refine ⟨rfl, rfl, ?_, ?_, ?_, hcolor⟩
    · rw [aspectPreserved, hrect]
      field_simp
    · rw [rectInside, hrect]
      exact ⟨le_refl 0, by linarith, by norm_num, by linarith⟩
    · rw [rectCentered, hrect]
      constructor <;> norm_num
  · have hrect : (printFullPageCanvas ⟨iw, ih⟩).drawRect =
        { x := (1275 - 1650 * (iw / ih)) / 2, y := 0, w := 1650 * (iw / ih),
          h := 1650 } := by
      simp [printFullPageCanvas, imageToCanvasBlob, imageToCanvasRect, hcmp]
    have hle : 1650 * (iw / ih) ≤ 1275 := by
      have h1 := not_lt.mp hcmp
      have h2 := (le_div_iff₀ (by norm_num : (0:ℚ) < 1650)).mp h1
      linarith
    have hpos : 0 < 1650 * (iw / ih) := by positivity
    refine ⟨rfl, rfl, ?_, ?_, ?_, hcolor⟩
    · rw [aspectPreserved, hrect]
      field_simp
    · rw [rectInside, hrect]
      exact ⟨by linarith, le_refl 0, by linarith, by norm_num⟩
    · rw [rectCentered, hrect]
      constructor <;> norm_num

/-- Claim C2 witness: a wide 200 by 100 source image fills the page width,
is letterboxed vertically, and the page corner stays white. -/
theorem fullPageRenderGeometry_witness :
    (0 : ℚ) < (ImageDims.mk 200 100).width ∧
    (0 : ℚ) < (ImageDims.mk 200 100).height ∧
    ((printFullPageCanvas ⟨200, 100⟩).width = 1275 ∧
     (printFullPageCanvas ⟨200, 100⟩).height = 1650 ∧
     aspectPreserved ⟨200, 100⟩ (printFullPageCanvas ⟨200, 100⟩).drawRect ∧
     rectInside (printFullPageCanvas ⟨200, 100⟩).drawRect 1275 1650 ∧
     rectCentered (printFullPageCanvas ⟨200, 100⟩).drawRect 1275 1650) ∧
    (printFullPageCanvas ⟨200, 100⟩).colorAt 0 0 = Color.white := by
  have h := fullPageRenderGeometry ⟨200, 100⟩ (by norm_num) (by norm_num)
  refine ⟨by norm_num, by norm_num,
    ⟨h.1, h.2.1, h.2.2.1, h.2.2.2.1, h.2.2.2.2.1⟩, ?_⟩
  refine h.2.2.2.2.2 0 0 ?_
  norm_num [printFullPageCanvas, imageToCanvasBlob, imageToCanvasRect, inRectB]

/-- Invariant of the recorder: whenever it is recording, the recording
timeout is armed for exactly 15000 milliseconds past the start. -/
def recInv (s : RecState) : Prop :=
  s.recording = true → s.timerDeadline = some (s.startedAt + 15000)

/-- Helper: every recorder transition reestablishes the invariant. -/
theorem recStep_inv (now : ℕ) (s : RecState) (e : RecEvent) :
    recInv (recStep now s e) := by
  cases e <;> simp [recStep, recInv]

/-- Helper: along a valid timed trace, an event arriving while the
recorder is recording arrives no later than 15000 milliseconds after the
recording started. -/
theorem recValid_append_bound (es : List (ℕ × RecEvent)) :
    ∀ (now : ℕ) (s : RecState) (t : ℕ) (e : RecEvent),
      recInv s → recValid now s (es ++ [(t, e)]) = true →
      (recRun s es).recording = true →
      t ≤ (recRun s es).startedAt + 15000 := by
  induction es with
  | nil =>
      intro now s t e hinv hv hr
      have hd := hinv hr
      simp only [List.nil_append, recValid, Bool.and_eq_true, decide_eq_true_eq] at hv
      have hx := hv.1.1.2
      rw [hd] at hx
      simp only [decide_eq_true_eq] at hx
      simpa [recRun] using hx
  | cons he es ih =>
      intro now s t e hinv hv hr
      obtain ⟨t0, e0⟩ := he
      simp only [List.cons_append, recValid, Bool.and_eq_true] at hv
      exact ih t0 (recStep t0 s e0) t e (recStep_inv t0 s e0) hv.2
        (by simpa [recRun] using hr)

/-- Claim C9: in every valid timed trace of the recorder, any event that
arrives while the recorder is still recording arrives at most 15000
milliseconds after the recording started — validity forbids time
passing a pending timeout deadline without the timeout firing — and the
timeout callback itself stops the recorder. -/
theorem recordingNeverExceeds15s (es : List (ℕ × RecEvent)) (t : ℕ) (e : RecEvent)
    (hv : recValid 0 recInit (es ++ [(t, e)]) = true)
    (hr : (recRun recInit es).recording = true) :
    t ≤ (recRun recInit es).startedAt + 15000 ∧
    (recStep t (recRun recInit es) RecEvent.timerFire).recording = false := by
  refine ⟨recValid_append_bound es 0 recInit t e ?_ hv hr, by simp [recStep]⟩
  intro h
  simp [recInit] at h

/-- Claim C9 witness: press at 3 milliseconds, release at 9000 — the release
arrives within the 15 second bound of the armed timer. -/
theorem recordingNeverExceeds15s_witness :
    recValid 0 recInit
      ([(3, RecEvent.pointerdown)] ++ [(9000, RecEvent.pointerup)]) = true ∧
    (recRun recInit [(3, RecEvent.pointerdown)]).recording = true ∧
    (9000 ≤ (recRun recInit [(3, RecEvent.pointerdown)]).startedAt + 15000 ∧
     (recStep 9000 (recRun recInit [(3, RecEvent.pointerdown)])
        RecEvent.timerFire).recording = false) :=
  ⟨by decide, by decide,
   recordingNeverExceeds15s [(3, RecEvent.pointerdown)] 9000 RecEvent.pointerup
     (by decide) (by decide)⟩

end StickerDream
